import Mathlib

/-!
Shallow embedding of the ForgeTrade trading engine's risk, broker-retry and
engine-cycle logic, with theorems settling the specification claims.

Python floats are modelled as exact rationals (ℚ); Python exceptions are
modelled by an explicit result type (`PyResult`); Python's `round(x, 5)`
(banker's rounding to 5 decimal places) is modelled by `pyRound5`.
-/

namespace ForgeTrade

/-- A Python call that either returns a value or raises an exception
carrying a message. -/
inductive PyResult (α : Type) where
  | ok (a : α)
  | exn (msg : String)
  deriving DecidableEq, Repr

/-- Python's `round(x, 5)`: round to 5 decimal places, ties to even
(banker's rounding, the semantics of CPython's `round`). -/
def pyRound5 (x : ℚ) : ℚ :=
  let s : ℚ := x * 100000
  let f : ℤ := Int.floor s
  let frac : ℚ := s - (f : ℚ)
  let r : ℤ :=
    if frac < 1/2 then f
    else if 1/2 < frac then f + 1
    else if f % 2 = 0 then f else f + 1
  (r : ℚ) / 100000

/-- Trade direction; the Python code uses the strings "buy" / "sell" and
raises ValueError on anything else, so the valid values form this type. -/
inductive Direction where
  | buy
  | sell
  deriving DecidableEq, Repr

/-- `app/strategy/models.py` — `SRZone`: a support or resistance zone. -/
structure SRZone where
  zone_type : String
  price_level : ℚ
  strength : ℤ
  deriving DecidableEq, Repr

/-- `app/risk/sl_tp.py` — `RiskLevels`: computed stop-loss and take-profit. -/
structure RiskLevels where
  sl : ℚ
  tp : ℚ
  tp_source : String
  deriving DecidableEq, Repr

/-- `calculate_zone_anchored_risk`, candidate filter: drop every zone whose
price level equals the triggering zone's price level. -/
def candidatesFor (sr_zones : List SRZone) (triggering_zone : Option SRZone) :
    List SRZone :=
  sr_zones.filter (fun z =>
    match triggering_zone with
    | none => true
    | some t => decide (z.price_level ≠ t.price_level))

/-- `calculate_zone_anchored_risk`, validity test for a take-profit
candidate zone: strictly beyond entry in the profit direction, at distance
at least `min_tp_dist`. -/
def validForTp (direction : Direction) (entry_price min_tp_dist : ℚ)
    (z : SRZone) : Bool :=
  match direction with
  | .buy => decide (entry_price < z.price_level) &&
      decide (min_tp_dist ≤ z.price_level - entry_price)
  | .sell => decide (z.price_level < entry_price) &&
      decide (min_tp_dist ≤ entry_price - z.price_level)

/-- `calculate_zone_anchored_risk`, the `valid_zones` list: candidates that
pass `validForTp`, sorted with the nearest-to-entry first (ascending price
for a buy, descending price for a sell). -/
def validZones (direction : Direction) (entry_price min_tp_dist : ℚ)
    (cands : List SRZone) : List SRZone :=
  match direction with
  | .buy => List.insertionSort (fun a b => a.price_level ≤ b.price_level)
      (cands.filter (validForTp .buy entry_price min_tp_dist))
  | .sell => List.insertionSort (fun a b => b.price_level ≤ a.price_level)
      (cands.filter (validForTp .sell entry_price min_tp_dist))

/-- `valid_zones[0]` when the list is non-empty: the nearest valid zone in
the profit direction. -/
def nearestValidZone (direction : Direction) (entry_price min_tp_dist : ℚ)
    (cands : List SRZone) : Option SRZone :=
  (validZones direction entry_price min_tp_dist cands).head?

/-- `app/risk/sl_tp.py` — `calculate_zone_anchored_risk`.  TP at the nearest
valid S/R zone in the profit direction, SL derived from the TP distance
divided by the R:R ratio, bounded by `min_sl_atr_mult × ATR` (reject below)
and `max_sl_atr_mult × ATR` (cap above); ATR-based fallback when no valid
zone exists.  `rr` is the Python parameter `rr_ratio`. -/
def calculate_zone_anchored_risk (entry_price : ℚ) (direction : Direction)
    (sr_zones : List SRZone) (atr : ℚ) (rr : ℚ)
    (triggering_zone : Option SRZone)
    (min_sl_atr_mult max_sl_atr_mult min_tp_atr_mult : ℚ) :
    Option RiskLevels :=
  let min_sl := min_sl_atr_mult * atr
  let max_sl := max_sl_atr_mult * atr
  let min_tp_dist := min_tp_atr_mult * atr
  let cands := candidatesFor sr_zones triggering_zone
  match nearestValidZone direction entry_price min_tp_dist cands with
  | some z =>
    let tp_price := z.price_level
    let tp_dist := |tp_price - entry_price|
    let derived_sl_dist := tp_dist / rr
    if derived_sl_dist < min_sl then
      none
    else
      let sl_dist := min derived_sl_dist max_sl
      let sl_price :=
        match direction with
        | .buy => entry_price - sl_dist
        | .sell => entry_price + sl_dist
      some ⟨pyRound5 sl_price, pyRound5 tp_price, "zone"⟩
  | none =>
    let sl_dist := max_sl
    let tp_dist := rr * sl_dist
    let sl_price :=
      match direction with
      | .buy => entry_price - sl_dist
      | .sell => entry_price + sl_dist
    let tp_price :=
      match direction with
      | .buy => entry_price + tp_dist
      | .sell => entry_price - tp_dist
    some ⟨pyRound5 sl_price, pyRound5 tp_price, "atr_fallback"⟩

/-- +1 for a buy, -1 for a sell: the sign of the profit direction. -/
def directionSign : Direction → ℚ
  | .buy => 1
  | .sell => -1

/-- `app/risk/drawdown.py` — `DrawdownTracker` state: peak equity, current
equity and the circuit-breaker threshold (a percentage). -/
structure DrawdownTracker where
  peak_equity : ℚ
  current_equity : ℚ
  max_drawdown_pct : ℚ
  deriving DecidableEq, Repr

namespace DrawdownTracker

/-- `DrawdownTracker.__init__`: raises ValueError unless the initial equity
is positive (the Python message also carries the offending value); otherwise
both peak and current equity start at the initial equity. -/
def make (initial_equity max_drawdown_pct : ℚ) : PyResult DrawdownTracker :=
  if initial_equity ≤ 0 then
    .exn "initial_equity must be positive"
  else
    .ok ⟨initial_equity, initial_equity, max_drawdown_pct⟩

/-- `DrawdownTracker.update`: record the latest equity; raise the peak when
the new equity exceeds it. -/
def update (t : DrawdownTracker) (equity : ℚ) : DrawdownTracker :=
  { t with
    current_equity := equity
    peak_equity :=
      if t.peak_equity < equity then equity else t.peak_equity }

/-- A sequence of `update` calls, applied left to right. -/
def run (t : DrawdownTracker) (equities : List ℚ) : DrawdownTracker :=
  equities.foldl update t

/-- `DrawdownTracker.drawdown_pct`: drawdown from peak as a percentage,
0 when the peak is 0. -/
def drawdown_pct (t : DrawdownTracker) : ℚ :=
  if t.peak_equity = 0 then 0
  else ((t.peak_equity - t.current_equity) / t.peak_equity) * 100

/-- `DrawdownTracker.circuit_breaker_active`: true when the drawdown has
reached or exceeded the threshold. -/
def circuit_breaker_active (t : DrawdownTracker) : Bool :=
  decide (t.drawdown_pct ≥ t.max_drawdown_pct)

end DrawdownTracker

/-- `app/broker/oanda_client.py` — `_MAX_RETRIES`. -/
def MAX_RETRIES : ℕ := 3

/-- `app/broker/oanda_client.py` — `_RETRY_BASE_DELAY` (seconds; doubles
each attempt). -/
def RETRY_BASE_DELAY : ℚ := 2

/-- `app/broker/oanda_client.py` — `_RETRYABLE_STATUS_CODES`. -/
def RETRYABLE_STATUS_CODES : List ℕ := [502, 503, 504, 429]

/-- Membership in the retryable status-code set. -/
def retryableStatus (status : ℕ) : Bool :=
  RETRYABLE_STATUS_CODES.contains status

/-- What a single HTTP attempt inside `_request_with_retry` produces: a
response with some status code, or a low-level transport failure
(`httpx.TransportError`: connection reset, timeout, ...). -/
inductive AttemptOutcome where
  | response (status : ℕ)
  | transportFailure
  deriving DecidableEq, Repr

/-- The error that an attempt contributes as `last_exc` (or raises
directly): an `httpx.HTTPStatusError` for a bad status code, or the
transport error itself. -/
inductive RequestError where
  | httpStatusError (status : ℕ)
  | transportError
  deriving DecidableEq, Repr

/-- Is this attempt outcome one the retry loop retries on?  Retryable
status codes and any transport failure. -/
def retryableOutcome : AttemptOutcome → Bool
  | .response status => retryableStatus status
  | .transportFailure => true

/-- The error corresponding to an attempt outcome. -/
def attemptError : AttemptOutcome → RequestError
  | .response status => .httpStatusError status
  | .transportFailure => .transportError

/-- How `_request_with_retry` ends: a successful response (its status), or
a raised error — `raised (some e)` is a raised request error, and
`raised none` models `raise last_exc` with `last_exc` still `None`
(unreachable for `_MAX_RETRIES = 3` but present in the code). -/
inductive RequestResult where
  | success (status : ℕ)
  | raised (err : Option RequestError)
  deriving DecidableEq, Repr

/-- Observable trace of one `_request_with_retry` call: the final result,
how many HTTP attempts were made, and the sleep delays (in seconds) in the
order they were performed. -/
structure RetryTrace where
  result : RequestResult
  attempts_made : ℕ
  delays : List ℚ
  deriving DecidableEq, Repr

/-- The retry loop of `_request_with_retry`, from attempt index `attempt`
with `fuel = _MAX_RETRIES - attempt` iterations left, accumulating the
attempt count and sleep delays.  On a retryable status or a transport
failure it sleeps `_RETRY_BASE_DELAY * 2 ^ attempt`, records the error as
`last_exc` and continues; a non-retryable error status (≥ 400) raises
immediately via `raise_for_status`; when the loop ends, `last_exc` is
raised. -/
def retryLoop (attempts : ℕ → AttemptOutcome) :
    (fuel attempt : ℕ) → Option RequestError → List ℚ → RetryTrace
  | 0, attempt, last_exc, delays =>
    ⟨.raised last_exc, attempt, delays⟩
  | fuel + 1, attempt, _last_exc, delays =>
    match attempts attempt with
    | .response status =>
      if retryableStatus status then
        retryLoop attempts fuel (attempt + 1)
          (some (.httpStatusError status))
          (delays ++ [RETRY_BASE_DELAY * 2 ^ attempt])
      else if 400 ≤ status then
        ⟨.raised (some (.httpStatusError status)), attempt + 1, delays⟩
      else
        ⟨.success status, attempt + 1, delays⟩
    | .transportFailure =>
      retryLoop attempts fuel (attempt + 1) (some .transportError)
        (delays ++ [RETRY_BASE_DELAY * 2 ^ attempt])

/-- `OandaClient._request_with_retry`, as a function of the outcome each
attempt would produce (`attempts i` = outcome of the i-th HTTP attempt). -/
def request_with_retry (attempts : ℕ → AttemptOutcome) : RetryTrace :=
  retryLoop attempts MAX_RETRIES 0 none []

/-- `app/risk/position_sizer.py` — `calculate_units`: position size from
equity, risk percentage, stop distance in pips and pip value; raises
ValueError on any non-positive input (the Python messages also carry the
offending value). -/
def calculate_units (equity risk_pct sl_distance_pips pip_value : ℚ) :
    PyResult ℚ :=
  if equity ≤ 0 then .exn "equity must be positive"
  else if risk_pct ≤ 0 then .exn "risk_pct must be positive"
  else if sl_distance_pips ≤ 0 then .exn "sl_distance_pips must be positive"
  else if pip_value ≤ 0 then .exn "pip_value must be positive"
  else .ok ((equity * (risk_pct / 100)) / (sl_distance_pips * pip_value))

/-- `app/broker/models.py` — `AccountSummary` as used by the engine. -/
structure AccountSummary where
  account_id : String
  balance : ℚ
  equity : ℚ
  open_position_count : ℕ
  currency : String
  deriving DecidableEq, Repr

/-- `app/strategy/session_filter.py` — `is_in_session`: inclusive start,
exclusive end. -/
def is_in_session (utc_hour session_start session_end : ℤ) : Bool :=
  decide (session_start ≤ utc_hour ∧ utc_hour < session_end)

/-- Engine state produced by a completed `TradingEngine.initialize()`:
the drawdown tracker and the `_running` flag. -/
structure InitState where
  drawdown : DrawdownTracker
  running : Bool
  deriving DecidableEq, Repr

/-- `app/engine.py` — `TradingEngine.initialize()`, as a function of what
`broker.get_account_summary()` does.  The whole try-body (fetch, tracker
construction, dashboard update) is guarded; on any exception the handler
logs and constructs `DrawdownTracker(initial_equity=0.0, ...)`; that
constructor call is NOT inside a further try, so if it raises, the
exception escapes `initialize()` and `self._running = True` never runs. -/
def initEngine (fetch : PyResult AccountSummary) (max_drawdown_pct : ℚ) :
    PyResult InitState :=
  let tryBody : PyResult DrawdownTracker :=
    match fetch with
    | .ok summary => DrawdownTracker.make summary.equity max_drawdown_pct
    | .exn e => .exn e
  match tryBody with
  | .ok t => .ok ⟨t, true⟩
  | .exn _ =>
    match DrawdownTracker.make 0 max_drawdown_pct with
    | .ok t => .ok ⟨t, true⟩
    | .exn e => .exn e

/-- `app/strategy/models.py` — `EntrySignal`. -/
structure EntrySignal where
  direction : Direction
  entry_price : ℚ
  sr_zone : SRZone
  candle_time : String
  reason : String
  deriving DecidableEq, Repr

/-- `app/strategy/base.py` — `StrategyResult`: a signal with its risk
parameters. -/
structure StrategyResult where
  signal : EntrySignal
  sl : ℚ
  tp : ℚ
  atr : Option ℚ
  deriving DecidableEq, Repr

/-- The ForgeAgent RL filter mode of a stream. -/
inductive RlMode where
  | disabled
  | shadow
  | active
  deriving DecidableEq, Repr

/-- What this cycle's strategy does when consulted: its
`SESSION_END_BUFFER_MIN` attribute (0 when absent) and what
`evaluate(broker, config)` returns — `none` for no signal, or raises. -/
structure StrategyBehavior where
  session_end_buffer_min : ℤ
  evaluate : PyResult (Option StrategyResult)
  deriving DecidableEq, Repr

/-- The action tag of one engine cycle, as reported by `run_once`. -/
inductive CycleResult where
  | halted (reason : String)
  | skipped (reason : String)
  | order_placed (order_id : String) (units : ℤ)
  deriving DecidableEq, Repr

/-- Everything one `run_once` call observes from the engine's state and
from the broker: the drawdown tracker, the clock, the session window, the
strategy, the RL filter, and what each broker call would return this
cycle. -/
structure EngineCycleInput where
  drawdown : Option DrawdownTracker
  utc_hour : ℤ
  utc_minute : ℤ
  session_start : ℤ
  session_end : ℤ
  strategy : Option StrategyBehavior
  rl_mode : RlMode
  rl_assess : Option (PyResult (ℕ × ℚ))
  account_fetch : PyResult AccountSummary
  risk_pct : ℚ
  pip_value : ℚ
  max_concurrent_positions : ℤ
  open_positions_on_instrument : PyResult ℕ
  place_order : PyResult String
  deriving DecidableEq, Repr

/-- Result of one `run_once` call: the outcome (an action dict, or a raised
exception that propagates to the `run()` loop) and how many
`broker.place_order` calls were made during the cycle. -/
structure CycleOutput where
  outcome : PyResult CycleResult
  orders_placed : ℕ
  deriving DecidableEq, Repr

/-- Python's `int()` on a rational: truncation toward zero. -/
def int_trunc (q : ℚ) : ℤ :=
  if q < 0 then -(Int.floor (-q)) else Int.floor q

/-- `app/engine.py` — `TradingEngine.run_once`, executed top-to-bottom and
short-circuiting at the first applicable gate: (1) circuit breaker,
(2) session filter, (2b) session-end buffer (skipped for 24h sessions),
(3) strategy evaluation, RL veto in active mode (RL exceptions are caught
and ignored), (4) account refresh, drawdown update and breaker re-check,
position sizing (integer units, minimum 1, negated for sells),
(4b) position-count guard (list failures ignored), (5) order placement.
Dashboard pushes are no-ops here; broker calls other than `place_order`
are not counted. -/
def run_once (inp : EngineCycleInput) : CycleOutput :=
  if (match inp.drawdown with
      | some d => d.circuit_breaker_active
      | none => false) then
    ⟨.ok (.halted "circuit_breaker"), 0⟩
  else if !(is_in_session inp.utc_hour inp.session_start inp.session_end)
  then
    ⟨.ok (.skipped "outside_session"), 0⟩
  else
    let buffer_min : ℤ :=
      match inp.strategy with
      | some st => st.session_end_buffer_min
      | none => 0
    let is_24h : Bool :=
      decide (inp.session_start = 0) && decide (inp.session_end = 24)
    let mins_until_close :=
      (inp.session_end - inp.utc_hour - 1) * 60 + (60 - inp.utc_minute)
    if 0 < buffer_min ∧ is_24h = false ∧ mins_until_close ≤ buffer_min then
      ⟨.ok (.skipped "session_ending_soon"), 0⟩
    else
      match inp.strategy with
      | none => ⟨.ok (.skipped "no_strategy"), 0⟩
      | some st =>
        match st.evaluate with
        | .exn e => ⟨.exn e, 0⟩
        | .ok none => ⟨.ok (.skipped "no_signal"), 0⟩
        | .ok (some result) =>
          let rl_veto : Bool :=
            match inp.rl_mode, inp.rl_assess with
            | .active, some (.ok (action, _)) => decide (action = 0)
            | _, _ => false
          if rl_veto then
            ⟨.ok (.skipped "rl_veto"), 0⟩
          else
            match inp.account_fetch with
            | .exn e => ⟨.exn e, 0⟩
            | .ok summary =>
              let breaker_after : Bool :=
                match inp.drawdown with
                | some d =>
                  (d.update summary.equity).circuit_breaker_active
                | none => false
              if breaker_after then
                ⟨.ok (.halted "circuit_breaker"), 0⟩
              else
                let sl_pips :=
                  |result.signal.entry_price - result.sl| / inp.pip_value
                match calculate_units summary.equity inp.risk_pct sl_pips
                    inp.pip_value with
                | .exn e => ⟨.exn e, 0⟩
                | .ok units_raw =>
                  let units_int := int_trunc units_raw
                  let units_min := if units_int = 0 then 1 else units_int
                  let units : ℤ :=
                    match result.signal.direction with
                    | .sell => -units_min
                    | .buy => units_min
                  let guard_skip : Bool :=
                    decide (0 < inp.max_concurrent_positions) &&
                      (match inp.open_positions_on_instrument with
                       | .ok n =>
                         decide (inp.max_concurrent_positions ≤ (n : ℤ))
                       | .exn _ => false)
                  if guard_skip then
                    ⟨.ok (.skipped "max_concurrent_positions"), 0⟩
                  else
                    match inp.place_order with
                    | .exn e => ⟨.exn e, 1⟩
                    | .ok order_id =>
                      ⟨.ok (.order_placed order_id units), 1⟩

section Helpers

/-- After an `update e`, the peak is at least `e`. -/
lemma le_update_peak (t : DrawdownTracker) (e : ℚ) :
    e ≤ (t.update e).peak_equity := by
  simp only [DrawdownTracker.update]
  split
  · exact le_refl e
  · exact le_of_not_lt (by assumption)

/-- `update` never lowers the peak. -/
lemma peak_le_update_peak (t : DrawdownTracker) (e : ℚ) :
    t.peak_equity ≤ (t.update e).peak_equity := by
  simp only [DrawdownTracker.update]
  split
  · exact le_of_lt (by assumption)
  · exact le_refl _

/-- A whole `run` of updates never lowers the peak. -/
lemma peak_le_run_peak (equities : List ℚ) (t : DrawdownTracker) :
    t.peak_equity ≤ (t.run equities).peak_equity := by
  induction equities generalizing t with
  | nil => exact le_refl _
  | cons e rest ih =>
    exact le_trans (peak_le_update_peak t e)
      (ih (t.update e))

/-- `run` preserves the current-below-peak invariant. -/
lemma run_current_le_peak (equities : List ℚ) (t : DrawdownTracker)
    (h : t.current_equity ≤ t.peak_equity) :
    (t.run equities).current_equity ≤ (t.run equities).peak_equity := by
  induction equities generalizing t with
  | nil => exact h
  | cons e rest ih =>
    refine ih (t.update e) ?_
    have h1 : (t.update e).current_equity = e := rfl
    rw [h1]
    exact le_update_peak t e

end Helpers

set_option maxRecDepth 8000

/-- C1: the claim says an account-summary fetch failure during
`TradingEngine.initialize()` is caught and leaves a zero-equity tracker
with `running = true`, so `initialize()` never raises.  In the code the
except-handler constructs `DrawdownTracker(initial_equity=0.0)`, whose own
guard `initial_equity <= 0` raises ValueError, so for EVERY fetch failure
`initialize()` itself raises and `_running` is never set — contradicting
the code's own comment ("so the loop can still run") and the spec. -/
theorem C1_initEngine_raises_on_fetch_failure (msg : String)
    (max_drawdown_pct : ℚ) :
    initEngine (.exn msg) max_drawdown_pct =
      .exn "initial_equity must be positive" := by
  simp [initEngine, DrawdownTracker.make]

/-- C1 evaluated at the concrete failing input: the broker fetch raises
(OANDA unreachable) with threshold 10 % — `initialize()` raises instead of
degrading to a zero-equity tracker. -/
theorem C1_failing_input_eval :
    initEngine (.exn "OANDA unreachable") 10 =
      .exn "initial_equity must be positive" := by
  with_unfolding_all decide

/-- C2: whenever the drawdown tracker's circuit breaker is active at the
start of a cycle, `run_once` returns `halted("circuit_breaker")` and makes
zero order-placement calls to the broker. -/
theorem C2_run_once_halts_on_active_breaker (inp : EngineCycleInput)
    (d : DrawdownTracker) (hdd : inp.drawdown = some d)
    (hcb : d.circuit_breaker_active = true) :
    run_once inp = ⟨.ok (.halted "circuit_breaker"), 0⟩ := by
  unfold run_once
  rw [hdd]
  simp [hcb]

/-- C2 witness: a concrete engine state whose tracker (peak 100, current
80, threshold 10 %) has the breaker active halts the cycle with zero
orders. -/
theorem C2_witness :
    run_once
      ⟨some ⟨100, 80, 10⟩, 12, 0, 7, 21, none, .disabled, none,
        .exn "down", 1, 1/10000, 0, .exn "down", .exn "down"⟩ =
      ⟨.ok (.halted "circuit_breaker"), 0⟩ :=
  C2_run_once_halts_on_active_breaker _ ⟨100, 80, 10⟩ rfl
    (by with_unfolding_all decide)

/-- C3: when every attempt fails retryably (a status in the retryable set
or a transport failure), the call makes exactly 3 attempts, sleeping the
exponentially doubling delays 2 s, 4 s, 8 s, and then raises the last
attempt's error; and a non-retryable error status on ANY attempt k
(after k retryable attempts) is raised immediately — exactly k+1
attempts are made, with only the k backoff sleeps that preceded it and
no further attempts. -/
theorem C3_request_with_retry_spec (attempts : ℕ → AttemptOutcome) :
    ((∀ i, i < MAX_RETRIES → retryableOutcome (attempts i) = true) →
      request_with_retry attempts =
        ⟨.raised (some (attemptError (attempts 2))), 3, [2, 4, 8]⟩) ∧
    (∀ k status, k < MAX_RETRIES →
      (∀ i, i < k → retryableOutcome (attempts i) = true) →
      attempts k = .response status →
      retryableStatus status = false → 400 ≤ status →
      request_with_retry attempts =
        ⟨.raised (some (.httpStatusError status)), k + 1,
          (List.range k).map (fun i => RETRY_BASE_DELAY * 2 ^ i)⟩) := by
  constructor
  · intro h
    have h0 := h 0 (by norm_num [MAX_RETRIES])
    have h1 := h 1 (by norm_num [MAX_RETRIES])
    have h2 := h 2 (by norm_num [MAX_RETRIES])
    unfold request_with_retry MAX_RETRIES
    rcases ha0 : attempts 0 with s0 | _ <;>
      rcases ha1 : attempts 1 with s1 | _ <;>
      rcases ha2 : attempts 2 with s2 | _ <;>
      rw [ha0] at h0 <;> rw [ha1] at h1 <;> rw [ha2] at h2 <;>
      simp only [retryableOutcome] at h0 h1 h2 <;>
      simp [retryLoop, ha0, ha1, ha2, h0, h1, h2, attemptError,
        RETRY_BASE_DELAY] <;>
      norm_num
  · intro k status hk hpre hak hnr hge
    have hk3 : k < 3 := by simpa [MAX_RETRIES] using hk
    unfold request_with_retry MAX_RETRIES
    interval_cases k
    · simp [retryLoop, hak, hnr, hge]
    · have h0 := hpre 0 (by norm_num)
      rcases ha0 : attempts 0 with s0 | _ <;>
        rw [ha0] at h0 <;>
        simp only [retryableOutcome] at h0 <;>
        simp [retryLoop, ha0, hak, hnr, hge, h0, RETRY_BASE_DELAY] <;>
        simp [List.range_succ]
    · have h0 := hpre 0 (by norm_num)
      have h1 := hpre 1 (by norm_num)
      rcases ha0 : attempts 0 with s0 | _ <;>
        rcases ha1 : attempts 1 with s1 | _ <;>
        rw [ha0] at h0 <;> rw [ha1] at h1 <;>
        simp only [retryableOutcome] at h0 h1 <;>
        simp [retryLoop, ha0, ha1, hak, hnr, hge, h0, h1,
          RETRY_BASE_DELAY] <;>
        simp [List.range_succ]

/-- C3 witness, both conjuncts: with every attempt a transport failure,
the call raises the transport error after 3 attempts with sleeps of
2 s, 4 s, 8 s; and with a transport failure followed by a 404, the 404
is raised immediately on the second attempt after the single 2 s sleep. -/
theorem C3_witness :
    (request_with_retry (fun _ => .transportFailure) =
      ⟨.raised (some .transportError), 3, [2, 4, 8]⟩) ∧
    (request_with_retry
        (fun i => if i = 0 then .transportFailure else .response 404) =
      ⟨.raised (some (.httpStatusError 404)), 2, [2]⟩) := by
  constructor
  · exact (C3_request_with_retry_spec (fun _ => .transportFailure)).1
      (by intro i _; rfl)
  · have h := (C3_request_with_retry_spec
        (fun i => if i = 0 then .transportFailure else .response 404)).2
      1 404 (by norm_num [MAX_RETRIES])
      (by
        intro i hi
        have hi0 : i = 0 := by omega
        subst hi0
        rfl)
      rfl rfl (by norm_num)
    simpa [List.range_succ, RETRY_BASE_DELAY] using h

/-- C4: the circuit breaker is active exactly when the drawdown percentage
has reached the threshold; in particular a drawdown exactly equal to the
threshold trips it. -/
theorem C4_breaker_active_iff_threshold (t : DrawdownTracker) :
    (t.circuit_breaker_active = true ↔
      t.drawdown_pct ≥ t.max_drawdown_pct) ∧
    (t.drawdown_pct = t.max_drawdown_pct →
      t.circuit_breaker_active = true) := by
  constructor
  · simp [DrawdownTracker.circuit_breaker_active]
  · intro h
    simp [DrawdownTracker.circuit_breaker_active, h]

/-- C5: entry 1.0830, direction buy, ATR 0.0020, R:R 2.0, triggering zone
at 1.0800 and a candidate zone at 1.0900 (default SL/TP bounds) give
take-profit 1.0900, stop-loss 1.0795, tagged "zone". -/
theorem C5_zone_anchored_concrete :
    calculate_zone_anchored_risk (1.0830 : ℚ) .buy
      [⟨"support", 1.0800, 3⟩, ⟨"resistance", 1.0900, 3⟩] 0.0020 2
      (some ⟨"support", 1.0800, 3⟩) 0.5 2.0 1.0 =
      some ⟨1.0795, 1.0900, "zone"⟩ := by
  with_unfolding_all decide

/-- C6: when some candidate zone is strictly beyond entry in the profit
direction at distance at least `min_tp_atr_mult × ATR`, but the derived
stop distance (the nearest valid zone's distance divided by the R:R
ratio) is strictly below `min_sl_atr_mult × ATR`, the function returns
no valid setup (`none`) rather than a near-zero stop. -/
theorem C6_too_close_zone_rejected
    (entry_price atr rr min_sl_atr_mult max_sl_atr_mult
      min_tp_atr_mult : ℚ)
    (direction : Direction) (sr_zones : List SRZone)
    (triggering_zone : Option SRZone) (_hrr : 0 < rr)
    (hex : ∃ z ∈ candidatesFor sr_zones triggering_zone,
      validForTp direction entry_price (min_tp_atr_mult * atr) z = true)
    (hnear : ∀ z, nearestValidZone direction entry_price
        (min_tp_atr_mult * atr) (candidatesFor sr_zones triggering_zone) =
        some z →
      |z.price_level - entry_price| / rr < min_sl_atr_mult * atr) :
    calculate_zone_anchored_risk entry_price direction sr_zones atr rr
      triggering_zone min_sl_atr_mult max_sl_atr_mult min_tp_atr_mult =
      none := by
  obtain ⟨z0, hz0, hvz0⟩ := hex
  have hmemf : z0 ∈ (candidatesFor sr_zones triggering_zone).filter
      (validForTp direction entry_price (min_tp_atr_mult * atr)) :=
    List.mem_filter.mpr ⟨hz0, hvz0⟩
  have hne : validZones direction entry_price (min_tp_atr_mult * atr)
      (candidatesFor sr_zones triggering_zone) ≠ [] := by
    cases direction <;>
    · simp only [validZones]
      intro hnil
      have hperm := List.perm_insertionSort
        (fun a b : SRZone => a.price_level ≤ b.price_level)
        ((candidatesFor sr_zones triggering_zone).filter
          (validForTp .buy entry_price (min_tp_atr_mult * atr)))
      have hperm2 := List.perm_insertionSort
        (fun a b : SRZone => b.price_level ≤ a.price_level)
        ((candidatesFor sr_zones triggering_zone).filter
          (validForTp .sell entry_price (min_tp_atr_mult * atr)))
      first
      | (rw [hnil] at hperm
         rw [hperm.symm.eq_nil] at hmemf
         exact List.not_mem_nil z0 hmemf)
      | (rw [hnil] at hperm2
         rw [hperm2.symm.eq_nil] at hmemf
         exact List.not_mem_nil z0 hmemf)
  obtain ⟨z1, hz1⟩ : ∃ z1, nearestValidZone direction entry_price
      (min_tp_atr_mult * atr) (candidatesFor sr_zones triggering_zone) =
      some z1 := by
    cases hv : validZones direction entry_price (min_tp_atr_mult * atr)
        (candidatesFor sr_zones triggering_zone) with
    | nil => exact absurd hv hne
    | cons a l => exact ⟨a, by simp [nearestValidZone, hv]⟩
  have hlt := hnear z1 hz1
  simp only [calculate_zone_anchored_risk, hz1]
  rw [if_pos hlt]

/-- C6 witness: entry 1.0830, buy, a valid zone at 1.0850 (distance
0.0020 = min TP distance for ATR 0.0020), R:R 4 — the derived stop
0.0005 is below the 0.0010 floor, so no setup is returned. -/
theorem C6_witness :
    calculate_zone_anchored_risk (1.0830 : ℚ) .buy
      [⟨"resistance", 1.0850, 2⟩] 0.0020 4 none 0.5 2.0 1.0 = none :=
  C6_too_close_zone_rejected 1.0830 0.0020 4 0.5 2.0 1.0 .buy
    [⟨"resistance", 1.0850, 2⟩] none (by norm_num)
    ⟨⟨"resistance", 1.0850, 2⟩, by with_unfolding_all decide,
      by with_unfolding_all decide⟩
    (by
      intro z hz
      have hc : nearestValidZone .buy (1.0830 : ℚ) ((1.0 : ℚ) * 0.0020)
          (candidatesFor [⟨"resistance", 1.0850, 2⟩] none) =
          some ⟨"resistance", 1.0850, 2⟩ := by with_unfolding_all decide
      rw [hc] at hz
      cases hz
      with_unfolding_all decide)

/-- C7 counterexample: with entry 1.000001, ATR 1, R:R 2,
`max_sl_atr_mult` 2 and no zones, the fallback result's stop-loss is the
ROUNDED price −1, so the stop distance from entry is 2.000001, not
`max_sl_atr_mult × ATR = 2` as the claim states. -/
theorem C7_counterexample :
    calculate_zone_anchored_risk ((1 : ℚ) + 1/1000000) .buy [] 1 2 none
      (1/2) 2 1 = some ⟨-1, 5, "atr_fallback"⟩ ∧
    ¬(((1 : ℚ) + 1/1000000) - (-1 : ℚ) = 2 * 1) := by
  constructor
  · with_unfolding_all decide
  · with_unfolding_all decide

/-- C7 amended: when no candidate zone is strictly beyond entry in the
profit direction at distance at least `min_tp_atr_mult × ATR`, the
function always returns a result tagged "atr_fallback" whose stop price
is entry minus (direction sign × `max_sl_atr_mult` × ATR) and whose
target price is entry plus (direction sign × R:R × `max_sl_atr_mult` ×
ATR), each rounded to 5 decimal places — so the stop and target
distances equal `max_sl_atr_mult × ATR` and `rr × max_sl_atr_mult × ATR`
up to that final rounding. -/
theorem C7_amended_atr_fallback
    (entry_price atr rr min_sl_atr_mult max_sl_atr_mult
      min_tp_atr_mult : ℚ)
    (direction : Direction) (sr_zones : List SRZone)
    (triggering_zone : Option SRZone)
    (hnone : ∀ z ∈ candidatesFor sr_zones triggering_zone,
      validForTp direction entry_price (min_tp_atr_mult * atr) z =
        false) :
    calculate_zone_anchored_risk entry_price direction sr_zones atr rr
      triggering_zone min_sl_atr_mult max_sl_atr_mult min_tp_atr_mult =
      some ⟨pyRound5 (entry_price -
              directionSign direction * (max_sl_atr_mult * atr)),
            pyRound5 (entry_price +
              directionSign direction * (rr * (max_sl_atr_mult * atr))),
            "atr_fallback"⟩ := by
  have hfil : (candidatesFor sr_zones triggering_zone).filter
      (validForTp direction entry_price (min_tp_atr_mult * atr)) = [] :=
    List.filter_eq_nil_iff.mpr (fun a ha => by simp [hnone a ha])
  have hnz : nearestValidZone direction entry_price
      (min_tp_atr_mult * atr) (candidatesFor sr_zones triggering_zone) =
      none := by
    cases direction <;>
      simp [nearestValidZone, validZones, hfil, List.insertionSort]
  cases direction <;>
    simp only [calculate_zone_anchored_risk, hnz, directionSign] <;>
    ring_nf

/-- C7 witness: the spec's own fallback scenario — entry 1.0830, buy, ATR
0.0020, R:R 2, the only candidate zone at 1.0835 is under the minimum TP
distance, so the result is the ATR fallback with stop 1.0790 and target
1.0910. -/
theorem C7_witness :
    calculate_zone_anchored_risk (1.0830 : ℚ) .buy
      [⟨"resistance", 1.0835, 2⟩] 0.0020 2 (some ⟨"support", 1.0800, 3⟩)
      0.5 2.0 1.0 =
      some ⟨pyRound5 ((1.0830 : ℚ) -
              directionSign .buy * ((2.0 : ℚ) * 0.0020)),
            pyRound5 ((1.0830 : ℚ) +
              directionSign .buy * ((2 : ℚ) * ((2.0 : ℚ) * 0.0020))),
            "atr_fallback"⟩ :=
  C7_amended_atr_fallback 1.0830 0.0020 2 0.5 2.0 1.0 .buy
    [⟨"resistance", 1.0835, 2⟩] (some ⟨"support", 1.0800, 3⟩)
    (by with_unfolding_all decide)

/-- C8: for positive equity, risk percentage, stop distance and pip
value, `calculate_units` returns exactly
(equity × riskPct / 100) / (stopPips × pipValue); any non-positive
argument is rejected with an invalid-input error. -/
theorem C8_calculate_units_spec
    (equity risk_pct sl_distance_pips pip_value : ℚ) :
    (0 < equity → 0 < risk_pct → 0 < sl_distance_pips → 0 < pip_value →
      calculate_units equity risk_pct sl_distance_pips pip_value =
        .ok ((equity * (risk_pct / 100)) /
          (sl_distance_pips * pip_value))) ∧
    ((equity ≤ 0 ∨ risk_pct ≤ 0 ∨ sl_distance_pips ≤ 0 ∨
        pip_value ≤ 0) →
      ∃ msg, calculate_units equity risk_pct sl_distance_pips pip_value =
        .exn msg) := by
  constructor
  · intro h1 h2 h3 h4
    simp [calculate_units, h1.not_le, h2.not_le, h3.not_le, h4.not_le]
  · intro h
    unfold calculate_units
    split_ifs with ha hb hc hd
    · exact ⟨_, rfl⟩
    · exact ⟨_, rfl⟩
    · exact ⟨_, rfl⟩
    · exact ⟨_, rfl⟩
    · exfalso
      push_neg at ha hb hc hd
      rcases h with h | h | h | h <;> linarith

/-- C8 witness: equity 10000, risk 1 %, stop 30 pips, pip value 0.0001
give 100000/3 units (≈ 333333). -/
theorem C8_witness :
    calculate_units 10000 1 30 (1/10000) = .ok (100000/3) := by
  have h := (C8_calculate_units_spec 10000 1 30 (1/10000)).1
    (by norm_num) (by norm_num) (by norm_num) (by norm_num)
  rw [h]
  exact congrArg PyResult.ok (by norm_num)

/-- C9: immediately after `update e` the peak equity is at least `e`,
and the peak never decreases across any sequence of updates. -/
theorem C9_peak_monotone (t : DrawdownTracker) (e : ℚ)
    (equities : List ℚ) :
    e ≤ (t.update e).peak_equity ∧
    t.peak_equity ≤ (t.run equities).peak_equity :=
  ⟨le_update_peak t e, peak_le_run_peak equities t⟩

/-- C10: a tracker constructed with positive initial equity satisfies
`current_equity ≤ peak_equity` after every sequence of updates, and
therefore `drawdown_pct` is always nonnegative. -/
theorem C10_current_le_peak_and_drawdown_nonneg
    (initial_equity max_drawdown_pct : ℚ) (t : DrawdownTracker)
    (equities : List ℚ) (hpos : 0 < initial_equity)
    (hmk : DrawdownTracker.make initial_equity max_drawdown_pct =
      .ok t) :
    (t.run equities).current_equity ≤ (t.run equities).peak_equity ∧
    0 ≤ (t.run equities).drawdown_pct := by
  have ht : t = ⟨initial_equity, initial_equity, max_drawdown_pct⟩ := by
    unfold DrawdownTracker.make at hmk
    rw [if_neg (not_le.mpr hpos)] at hmk
    exact (PyResult.ok.inj hmk).symm
  subst ht
  have hcur := run_current_le_peak equities
    ⟨initial_equity, initial_equity, max_drawdown_pct⟩ (le_refl _)
  have hpeak : 0 < (DrawdownTracker.run
      ⟨initial_equity, initial_equity, max_drawdown_pct⟩
      equities).peak_equity :=
    lt_of_lt_of_le hpos (peak_le_run_peak equities _)
  refine ⟨hcur, ?_⟩
  unfold DrawdownTracker.drawdown_pct
  rw [if_neg (ne_of_gt hpeak)]
  have hdiv := div_nonneg (sub_nonneg.mpr hcur) (le_of_lt hpeak)
  have := mul_nonneg hdiv (by norm_num : (0:ℚ) ≤ 100)
  linarith

/-- C10 witness: starting equity 100, threshold 10 %, and the update
sequence 50, 120, 30 keep current ≤ peak and a nonnegative drawdown. -/
theorem C10_witness :
    (DrawdownTracker.run ⟨100, 100, 10⟩ [50, 120, 30]).current_equity ≤
      (DrawdownTracker.run ⟨100, 100, 10⟩ [50, 120, 30]).peak_equity ∧
    0 ≤ (DrawdownTracker.run ⟨100, 100, 10⟩ [50, 120, 30]).drawdown_pct :=
  C10_current_le_peak_and_drawdown_nonneg 100 10 ⟨100, 100, 10⟩
    [50, 120, 30] (by norm_num) (by with_unfolding_all decide)

end ForgeTrade
